import Mathlib

/-!
Shallow embedding of the kopy controller's reconcile engine
(internal/controller: kopier.go, kopysecret.go, controller_helpers.go,
and the KopyConfigMap adapter) and proofs about the frozen claims.

The cluster API client is modelled as a deterministic snapshot
(`Cluster`): a GET finds an object iff it is present; UPDATE failures
are injected through an oracle (`updateFails`); the label-selector LIST
of namespaces is the client's job and is modelled by the `nsList` field.
Each embedded function returns its Go result together with the list of
client operations (reads and attempted writes) it performs, so that
frame claims ("performs no mutation") are statements about the trace.
-/

/-- Association-list lookup, the Go `v, ok := m[k]` two-value read. -/
def lookupKV (m : List (String × String)) (k : String) : Option String :=
  (m.find? (fun p => p.1 == k)).map Prod.snd

/-- Go single-value map read `m[k]`: the zero value "" when the key is absent. -/
def mapGetD (m : List (String × String)) (k : String) : String :=
  (lookupKV m k).getD ""

/-- Go `delete(m, k)`. -/
def eraseKV (m : List (String × String)) (k : String) : List (String × String) :=
  m.filter (fun p => p.1 != k)

/-- The metadata shared by managed objects (corev1 ObjectMeta, the fields the
controller reads: Name, Namespace, Labels, Annotations, Finalizers,
DeletionTimestamp modelled as a flag). -/
structure ObjectMeta where
  name : String
  ns : String
  labels : List (String × String)
  annots : List (String × String)
  finalizers : List String
  deletionTimestamp : Bool
deriving DecidableEq, Repr

/-- corev1.Secret: ObjectMeta plus Data, StringData and Type. -/
structure Secret where
  meta : ObjectMeta
  data : List (String × String)
  stringData : List (String × String)
  type : String
deriving DecidableEq, Repr

/-- corev1.ConfigMap: ObjectMeta plus Data and BinaryData. -/
structure ConfigMap where
  meta : ObjectMeta
  data : List (String × String)
  binaryData : List (String × String)
deriving DecidableEq, Repr

/-- corev1.Namespace: the fields the controller reads (Name, Labels,
Status.Phase as its literal string, DeletionTimestamp as a flag). -/
structure NamespaceObj where
  name : String
  labels : List (String × String)
  phase : String
  deletionTimestamp : Bool
deriving DecidableEq, Repr

/-- kopier.go: sync annotation key. -/
def syncKey : String := "kopy.kot-labs.com/sync"

/-- kopier.go: origin-name label key. -/
def sourceLabelName : String := "kopy.kot-labs.com/origin.name"

/-- kopier.go: origin-namespace label key. -/
def sourceLabelNamespace : String := "kopy.kot-labs.com/origin.namespace"

/-- kopier.go: the kopy finalizer token. -/
def syncFinalizer : String := "kopy.kot-labs.com/finalizer"

/-- controllerutil.ContainsFinalizer. -/
def containsFinalizer (m : ObjectMeta) (f : String) : Bool :=
  m.finalizers.contains f

/-- controllerutil.AddFinalizer: append the token when absent. -/
def addFinalizerMeta (m : ObjectMeta) (f : String) : ObjectMeta :=
  if m.finalizers.contains f then m
  else { m with finalizers := m.finalizers ++ [f] }

/-- controllerutil.RemoveFinalizer: drop every occurrence of the token. -/
def removeFinalizerMeta (m : ObjectMeta) (f : String) : ObjectMeta :=
  { m with finalizers := m.finalizers.filter (fun x => x != f) }

/-- Result of a client GET of a namespace, including the transient non-notfound
error case (needed by isNamespaceMarkedForDelete). -/
inductive NsGetResult where
  | found (n : NamespaceObj)
  | notFound
  | otherError
deriving DecidableEq, Repr

/-- The zero value `&corev1.Namespace{}` the Go code allocates before the GET. -/
def namespaceZero : NamespaceObj :=
  { name := "", labels := [], phase := "", deletionTimestamp := false }

/-- controller_helpers.go isNamespaceMarkedForDelete: true on not-found; on any
other GET error the namespace stays the zero value and the phase test runs on
it; otherwise true iff the phase is Terminating. -/
def isNamespaceMarkedForDelete (g : NsGetResult) : Bool :=
  match g with
  | NsGetResult.notFound => true
  | NsGetResult.otherError => namespaceZero.phase == "Terminating"
  | NsGetResult.found n => n.phase == "Terminating"

/-- Split a character list at each equals sign, yielding one field per
separator-delimited run (so a list with no separator yields one field). -/
def splitEq : List Char → List String
  | [] => [""]
  | c :: cs =>
    match splitEq cs with
    | [] => []
    | f :: rest =>
      if c = '=' then "" :: f :: rest
      else String.mk (c :: f.toList) :: rest

/-- Go strings.Split(v, "=") for the single-character separator. -/
def stringsSplitEq (v : String) : List String :=
  splitEq v.toList

/-- controller_helpers.go namespaceContainsSyncLabel: looks up the sync
annotation, splits it on "=", and indexes parts 0 and 1. Indexing part 1 of a
value holding no "=" is a Go runtime panic, modelled as `none`. -/
def namespaceContainsSyncLabel (o : ObjectMeta) (ns : NamespaceObj) : Option Bool :=
  match lookupKV o.annots syncKey with
  | Option.none => some false
  | some v =>
    match stringsSplitEq v with
    | [] => Option.none
    | [_] => Option.none
    | key :: value :: _ => some (mapGetD ns.labels key == value)

/-- controller_helpers.go getSyncNamespaces: from the client's selector LIST
result, skip the request's own namespace and every namespace carrying a
deletion timestamp. -/
def getSyncNamespaces (listResult : List NamespaceObj) (reqNs : String) : List NamespaceObj :=
  listResult.filter (fun n => n.name != reqNs && !n.deletionTimestamp)

/-- A client operation performed during a reconcile (reads and writes). -/
inductive Op where
  | getSecret (ns name : String)
  | getNamespace (name : String)
  | listSecrets (originNs : String)
  | listNamespaces
  | createSecret (s : Secret)
  | updateSecret (s : Secret)
deriving DecidableEq, Repr

/-- Outcome of a reconcile step: nil error, an error string, or a runtime
panic. -/
inductive RecResult where
  | ok
  | err (msg : String)
  | panicked
deriving DecidableEq, Repr

/-- The deterministic cluster snapshot a reconcile runs against. `nsList` is
what the client's label-selector LIST of namespaces returns; `updateFails`
injects UPDATE failures by (namespace, name). -/
structure Cluster where
  secrets : List Secret
  namespaces : List NamespaceObj
  nsList : List NamespaceObj
  updateFails : String → String → Bool

/-- Client GET of a secret by namespace and name. -/
def findSecret (c : Cluster) (ns name : String) : Option Secret :=
  c.secrets.find? (fun s => s.meta.ns == ns && s.meta.name == name)

/-- Client GET of a namespace by name. -/
def findNamespace (c : Cluster) (name : String) : Option NamespaceObj :=
  c.namespaces.find? (fun n => n.name == name)

/-- View a deterministic namespace GET as a NsGetResult. -/
def toNsGet (o : Option NamespaceObj) : NsGetResult :=
  match o with
  | some n => NsGetResult.found n
  | Option.none => NsGetResult.notFound

/-- controller_helpers.go listOptions + client LIST: the secrets whose
origin-namespace label equals the source's namespace. -/
def listCopies (c : Cluster) (self : Secret) : List Secret :=
  c.secrets.filter (fun s => lookupKV s.meta.labels sourceLabelNamespace == some self.meta.ns)

/-- kopysecret.go KopySecret.Copy, the object it constructs: fresh metadata
with only the origin-namespace label, Data / StringData / Type carried over,
then controllerutil.AddFinalizer. -/
def builtSecretCopy (s : Secret) (targetNs : String) : Secret :=
  let copy : Secret :=
    { meta := { name := s.meta.name, ns := targetNs,
                labels := [(sourceLabelNamespace, s.meta.ns)],
                annots := [], finalizers := [], deletionTimestamp := false },
      data := s.data, stringData := s.stringData, type := s.type }
  { copy with meta := addFinalizerMeta copy.meta syncFinalizer }

/-- KopyConfigMap.Copy, the object it constructs: fresh metadata with only the
origin-namespace label, Data carried over (BinaryData is left at its zero
value), then controllerutil.AddFinalizer. -/
def builtConfigMapCopy (s : ConfigMap) (targetNs : String) : ConfigMap :=
  let copy : ConfigMap :=
    { meta := { name := s.meta.name, ns := targetNs,
                labels := [(sourceLabelNamespace, s.meta.ns)],
                annots := [], finalizers := [], deletionTimestamp := false },
      data := s.data, binaryData := [] }
  { copy with meta := addFinalizerMeta copy.meta syncFinalizer }

/-- kopysecret.go KopySecret.Copy: CREATE the built copy; on already-exists
fall back to UPDATE. -/
def KopySecret.Copy (c : Cluster) (s : Secret) (targetNs : String) : RecResult × List Op :=
  let copy := builtSecretCopy s targetNs
  match findSecret c targetNs s.meta.name with
  | Option.none => (RecResult.ok, [Op.createSecret copy])
  | some _ =>
    if c.updateFails targetNs s.meta.name then
      (RecResult.err "unable to copy secret", [Op.createSecret copy, Op.updateSecret copy])
    else
      (RecResult.ok, [Op.createSecret copy, Op.updateSecret copy])

/-- kopysecret.go KopySecret.SyncOptions: true iff the sync annotation key is
present (the value is not inspected). -/
def KopySecret.SyncOptions (self : Secret) : Bool :=
  (lookupKV self.meta.annots syncKey).isSome

/-- kopysecret.go KopySecret.MarkedForDeletion. -/
def KopySecret.MarkedForDeletion (self : Secret) : Bool :=
  self.meta.deletionTimestamp && containsFinalizer self.meta syncFinalizer

/-- kopysecret.go KopySecret.SyncSource: GET the source (an error, not-found
included, propagates), GET the target; copy when the target is absent or has
no origin label; refuse when its origin label names a different namespace. -/
def KopySecret.SyncSource (c : Cluster) (name sourceNs targetNs : String) : RecResult × List Op :=
  match findSecret c sourceNs name with
  | Option.none => (RecResult.err "secret not found", [Op.getSecret sourceNs name])
  | some src =>
    let ops := [Op.getSecret sourceNs name, Op.getSecret targetNs name]
    match findSecret c targetNs name with
    | Option.none =>
      let r := KopySecret.Copy c src targetNs
      (r.1, ops ++ r.2)
    | some tgt =>
      match lookupKV tgt.meta.labels sourceLabelNamespace with
      | Option.none =>
        let r := KopySecret.Copy c src targetNs
        (r.1, ops ++ r.2)
      | some origin =>
        if origin ≠ sourceNs then
          (RecResult.err (name ++ " has a different source in namespace " ++ origin), ops)
        else
          let r := KopySecret.Copy c src targetNs
          (r.1, ops ++ r.2)

/-- kopysecret.go KopySecret.SyncDeletedCopy: GET the origin secret (an error,
not-found included, propagates), GET the namespace, UPDATE self with the
finalizer removed, then regenerate the copy when the namespace still carries
the sync label. -/
def KopySecret.SyncDeletedCopy (c : Cluster) (self : Secret) : RecResult × List Op :=
  let originNamespace := mapGetD self.meta.labels sourceLabelNamespace
  match findSecret c originNamespace self.meta.name with
  | Option.none => (RecResult.err "secret not found", [Op.getSecret originNamespace self.meta.name])
  | some originSecret =>
    match findNamespace c self.meta.ns with
    | Option.none =>
      (RecResult.err "namespace not found",
       [Op.getSecret originNamespace self.meta.name, Op.getNamespace self.meta.ns])
    | some ns =>
      let self2 := { self with meta := removeFinalizerMeta self.meta syncFinalizer }
      let ops := [Op.getSecret originNamespace self.meta.name, Op.getNamespace self.meta.ns,
                  Op.updateSecret self2]
      if c.updateFails self.meta.ns self.meta.name then
        (RecResult.err "unable to update secret", ops)
      else
        match namespaceContainsSyncLabel originSecret.meta ns with
        | Option.none => (RecResult.panicked, ops)
        | some true =>
          let r := KopySecret.Copy c originSecret ns.name
          (r.1, ops ++ r.2)
        | some false => (RecResult.ok, ops)

/-- kopysecret.go KopySecret.SourceDeletion: the listed copies matching the
source's name that carry the finalizer (the loop's processed set). -/
def sdTargets (c : Cluster) (self : Secret) : List Secret :=
  (listCopies c self).filter
    (fun cp => cp.meta.name == self.meta.name && containsFinalizer cp.meta syncFinalizer)

/-- The object one loop iteration of KopySecret.SourceDeletion updates a copy
to: controllerutil.RemoveFinalizer then delete of the origin-namespace label,
in one UPDATE. -/
def sdUpdatedCopy (cp : Secret) : Secret :=
  { cp with meta := { cp.meta with
      finalizers := cp.meta.finalizers.filter (fun x => x != syncFinalizer),
      labels := eraseKV cp.meta.labels sourceLabelNamespace } }

/-- The copies whose UPDATE fails during KopySecret.SourceDeletion (the loop's
accumulated errors). -/
def sdFailed (c : Cluster) (self : Secret) : List Secret :=
  (sdTargets c self).filter (fun cp => c.updateFails cp.meta.ns cp.meta.name)

/-- errors.Join over the loop's per-copy error messages. -/
def sdJoinedErr (failed : List Secret) : String :=
  String.intercalate "\n"
    (failed.map (fun cp => "unable to remove finalizer from copy in namespace " ++ cp.meta.ns))

/-- kopysecret.go KopySecret.SourceDeletion: LIST the copies, strip finalizer
and origin label from each matching copy, aggregate per-copy UPDATE errors; the
source's own finalizer-removing UPDATE runs only when no per-copy error
occurred. -/
def KopySecret.SourceDeletion (c : Cluster) (self : Secret) : RecResult × List Op :=
  let copyOps := (sdTargets c self).map (fun cp => Op.updateSecret (sdUpdatedCopy cp))
  if sdFailed c self = [] then
    let self2 := { self with meta := removeFinalizerMeta self.meta syncFinalizer }
    if c.updateFails self.meta.ns self.meta.name then
      (RecResult.err "unable to update source",
       Op.listSecrets self.meta.ns :: copyOps ++ [Op.updateSecret self2])
    else
      (RecResult.ok, Op.listSecrets self.meta.ns :: copyOps ++ [Op.updateSecret self2])
  else
    (RecResult.err (sdJoinedErr (sdFailed c self)), Op.listSecrets self.meta.ns :: copyOps)

/-- The zero value `&corev1.Secret{}` the adapter allocates; Fetch leaves it in
place on a not-found GET. -/
def zeroSecret : Secret :=
  { meta := { name := "", ns := "", labels := [], annots := [], finalizers := [],
              deletionTimestamp := false },
    data := [], stringData := [], type := "" }

/-- kopier.go KopyReconcile instantiated with the KopySecret adapter: the full
dispatch on (finalizer, deletion, origin label, sync annotation), returning the
Go result and the trace of client operations. -/
def KopyReconcile (c : Cluster) (reqName reqNs : String) : RecResult × List Op :=
  if reqName == "" && reqNs == "" then (RecResult.ok, [])
  else
    let fetched := (findSecret c reqNs reqName).getD zeroSecret
    let fetchOp := Op.getSecret reqNs reqName
    if containsFinalizer fetched.meta syncFinalizer then
      if KopySecret.MarkedForDeletion fetched then
        if KopySecret.SyncOptions fetched then
          let r := KopySecret.SourceDeletion c fetched
          (r.1, fetchOp :: r.2)
        else if isNamespaceMarkedForDelete (toNsGet (findNamespace c reqNs)) then
          let self2 := { fetched with meta := removeFinalizerMeta fetched.meta syncFinalizer }
          let ops := [fetchOp, Op.getNamespace reqNs, Op.updateSecret self2]
          if c.updateFails reqNs reqName then (RecResult.err "unable to update secret", ops)
          else (RecResult.ok, ops)
        else
          let r := KopySecret.SyncDeletedCopy c fetched
          (r.1, fetchOp :: Op.getNamespace reqNs :: r.2)
      else
        match lookupKV fetched.meta.labels sourceLabelNamespace with
        | some sourceNamespace =>
          let r := KopySecret.SyncSource c reqName sourceNamespace reqNs
          (r.1, fetchOp :: r.2)
        | Option.none =>
          if KopySecret.SyncOptions fetched then
            let nss := getSyncNamespaces c.nsList reqNs
            let fan := (nss.map (fun n => (KopySecret.SyncSource c reqName reqNs n.name).2)).flatten
            (RecResult.ok, fetchOp :: Op.listNamespaces :: fan)
          else
            let r := KopySecret.SourceDeletion c fetched
            (r.1, fetchOp :: r.2)
    else
      if KopySecret.SyncOptions fetched then
        let self2 := { fetched with meta := addFinalizerMeta fetched.meta syncFinalizer }
        if c.updateFails reqNs reqName then
          (RecResult.err "unable to update secret", [fetchOp, Op.updateSecret self2])
        else
          let nss := getSyncNamespaces c.nsList reqNs
          let fan := (nss.map (fun n => (KopySecret.SyncSource c reqName reqNs n.name).2)).flatten
          (RecResult.ok, fetchOp :: Op.updateSecret self2 :: Op.listNamespaces :: fan)
      else (RecResult.ok, [fetchOp])

/-- Modelled from the spec: the selector-parser contract of section 4.1, which
accepts exactly the form K=V with K and V non-empty (label-legality of the
characters is not modelled; it only shrinks the accepted set further). -/
def kvFormSpec (v : String) : Bool :=
  match stringsSplitEq v with
  | [k, val] => !k.isEmpty && !val.isEmpty
  | _ => false

/-- Modelled from the spec: terminating-or-absent of section 4.2 — true on
not-found, the phase test on success, and no boolean answer (an error
propagates) on any other GET error. -/
def terminatingOrAbsentSpec (g : NsGetResult) : Option Bool :=
  match g with
  | NsGetResult.notFound => some true
  | NsGetResult.found n => some (n.phase == "Terminating")
  | NsGetResult.otherError => Option.none

/-- Source secret of the C1 counterexample: an annotated source in namespace
src. -/
def srcEx1 : Secret :=
  { meta := { name := "tok", ns := "src", labels := [],
              annots := [(syncKey, "app=demo")], finalizers := [syncFinalizer],
              deletionTimestamp := false },
    data := [("pw", "p1")], stringData := [], type := "Opaque" }

/-- Copy secret of the C1 counterexample: finalizer and origin label, not
marked for deletion. -/
def copyEx1 : Secret :=
  { meta := { name := "tok", ns := "t1", labels := [(sourceLabelNamespace, "src")],
              annots := [], finalizers := [syncFinalizer], deletionTimestamp := false },
    data := [("pw", "p1")], stringData := [], type := "Opaque" }

/-- Cluster of the C1 counterexample. -/
def cEx1 : Cluster :=
  { secrets := [srcEx1, copyEx1],
    namespaces := [{ name := "src", labels := [], phase := "Active", deletionTimestamp := false },
                   { name := "t1", labels := [("app", "demo")], phase := "Active", deletionTimestamp := false }],
    nsList := [], updateFails := fun _ _ => false }

/-- Copy secret of the C3 failing input: marked for deletion, finalizer and
origin label pointing at namespace src, whose source is absent. -/
def copyEx3 : Secret :=
  { meta := { name := "tok", ns := "t1", labels := [(sourceLabelNamespace, "src")],
              annots := [], finalizers := [syncFinalizer], deletionTimestamp := true },
    data := [], stringData := [], type := "Opaque" }

/-- Cluster of the C3 failing input: the copy exists, its namespace is active,
no source secret exists. -/
def cEx3 : Cluster :=
  { secrets := [copyEx3],
    namespaces := [{ name := "t1", labels := [], phase := "Active", deletionTimestamp := false }],
    nsList := [], updateFails := fun _ _ => false }

/-- ConfigMap of the C4 counterexample: a source carrying BinaryData. -/
def cmEx4 : ConfigMap :=
  { meta := { name := "cfg", ns := "src", labels := [],
              annots := [(syncKey, "app=demo")], finalizers := [], deletionTimestamp := false },
    data := [("HOST", "a")], binaryData := [("bin", "AQ==")] }

/-- Secret of the C5 counterexample: sync annotation key present with the
value foo, which is not of the K=V form; no finalizer. -/
def sEx5 : Secret :=
  { meta := { name := "cfg", ns := "src", labels := [],
              annots := [(syncKey, "foo")], finalizers := [], deletionTimestamp := false },
    data := [], stringData := [], type := "Opaque" }

/-- Cluster of the C5 counterexample. -/
def cEx5 : Cluster :=
  { secrets := [sEx5],
    namespaces := [{ name := "src", labels := [], phase := "Active", deletionTimestamp := false }],
    nsList := [], updateFails := fun _ _ => false }

/-- Source secret of the C2 witness: annotated, marked for deletion. -/
def srcEx2 : Secret :=
  { meta := { name := "tok", ns := "src", labels := [],
              annots := [(syncKey, "app=demo")], finalizers := [syncFinalizer],
              deletionTimestamp := true },
    data := [], stringData := [], type := "Opaque" }

/-- Copy secret of the C2 witness: origin label and finalizer, in namespace
t1 whose UPDATE fails. -/
def cpEx2 : Secret :=
  { meta := { name := "tok", ns := "t1", labels := [(sourceLabelNamespace, "src")],
              annots := [], finalizers := [syncFinalizer], deletionTimestamp := false },
    data := [], stringData := [], type := "Opaque" }

/-- Cluster of the C2 witness: the copy's UPDATE fails. -/
def cEx2 : Cluster :=
  { secrets := [srcEx2, cpEx2],
    namespaces := [], nsList := [],
    updateFails := fun ns _ => ns == "t1" }

/-- Cluster of the C10 witness: same shape as the C2 witness but every UPDATE
succeeds. -/
def cEx10 : Cluster :=
  { secrets := [srcEx2, cpEx2],
    namespaces := [], nsList := [],
    updateFails := fun _ _ => false }

/-- Source secret of the C6 witness. -/
def srcEx6 : Secret :=
  { meta := { name := "tok", ns := "src-b", labels := [],
              annots := [(syncKey, "app=demo")], finalizers := [syncFinalizer],
              deletionTimestamp := false },
    data := [], stringData := [], type := "Opaque" }

/-- Pre-existing copy of the C6 witness, owned by a different origin. -/
def tgtEx6 : Secret :=
  { meta := { name := "tok", ns := "tgt", labels := [(sourceLabelNamespace, "src-a")],
              annots := [], finalizers := [syncFinalizer], deletionTimestamp := false },
    data := [], stringData := [], type := "Opaque" }

/-- Cluster of the C6 witness. -/
def cEx6 : Cluster :=
  { secrets := [srcEx6, tgtEx6],
    namespaces := [], nsList := [], updateFails := fun _ _ => false }

/-- Namespace of the C9 witness. -/
def nEx9 : NamespaceObj :=
  { name := "t1", labels := [("app", "demo")], phase := "Active", deletionTimestamp := false }

/-- Object metadata of the C8 failing input: sync annotation value abc holds
no equals sign. -/
def oEx8 : ObjectMeta :=
  { name := "tok", ns := "src", labels := [], annots := [(syncKey, "abc")],
    finalizers := [], deletionTimestamp := false }

/-- Namespace object of the C8 failing input. -/
def nsEx8 : NamespaceObj :=
  { name := "t1", labels := [("app", "demo")], phase := "Active", deletionTimestamp := false }

/-- Key lookup after a Go delete of that key yields nothing. -/
lemma lookupKV_erase (m : List (String × String)) (k : String) :
    lookupKV (eraseKV m k) k = Option.none := by
  simp [lookupKV, eraseKV]

/-- C1 counterexample: on a concrete cluster holding a source src/tok and its
copy t1/tok (finalizer, origin label, no deletion), the reconcile of the copy
DOES perform a GET of the source and an UPDATE — refuting the claim that the
copy branch performs no cluster operation beyond the fetch. -/
theorem KopyReconcile_copy_untouched_cex :
    Op.getSecret "src" "tok" ∈ (KopyReconcile cEx1 "tok" "t1").2 ∧
    Op.updateSecret (builtSecretCopy srcEx1 "t1") ∈ (KopyReconcile cEx1 "tok" "t1").2 := by
  decide

/-- C1 (amended): for every fetched object carrying the sync finalizer, not
marked for deletion, and carrying the origin-namespace label, the reconcile
runs the SyncSource path against the labelled origin: it GETs the source and
re-upserts the copy into the request's namespace, and the reconcile's result
is exactly SyncSource's result. -/
theorem KopyReconcile_copy_branch_syncs_from_source
    (c : Cluster) (reqName reqNs sNs : String) (fetched : Secret)
    (hreq : reqName ≠ "")
    (hget : findSecret c reqNs reqName = some fetched)
    (hfin : containsFinalizer fetched.meta syncFinalizer = true)
    (hdel : KopySecret.MarkedForDeletion fetched = false)
    (hlbl : lookupKV fetched.meta.labels sourceLabelNamespace = some sNs) :
    KopyReconcile c reqName reqNs =
      ((KopySecret.SyncSource c reqName sNs reqNs).1,
       Op.getSecret reqNs reqName :: (KopySecret.SyncSource c reqName sNs reqNs).2) := by
  have hne : (reqName == "" && reqNs == "") = false := by simp [hreq]
  unfold KopyReconcile
  simp [hne, hget, hfin, hdel, hlbl]

/-- C1 witness: the amended theorem applied to the concrete copy cluster. -/
theorem KopyReconcile_copy_branch_syncs_from_source_witness :
    KopyReconcile cEx1 "tok" "t1" =
      ((KopySecret.SyncSource cEx1 "tok" "src" "t1").1,
       Op.getSecret "t1" "tok" :: (KopySecret.SyncSource cEx1 "tok" "src" "t1").2) :=
  KopyReconcile_copy_branch_syncs_from_source cEx1 "tok" "t1" "src" copyEx1
    (by decide) (by decide) (by decide) (by decide) (by decide)

/-- C2: whenever the finalizer-removing UPDATE of at least one listed copy
fails, SourceDeletion returns the joined per-copy error and its trace is
exactly the LIST plus the per-copy UPDATEs — the UPDATE removing the source's
own finalizer is never attempted. -/
theorem SourceDeletion_partial_failure_blocks_source_update
    (c : Cluster) (self cp : Secret)
    (hmem : cp ∈ sdTargets c self)
    (hfail : c.updateFails cp.meta.ns cp.meta.name = true) :
    KopySecret.SourceDeletion c self =
      (RecResult.err (sdJoinedErr (sdFailed c self)),
       Op.listSecrets self.meta.ns ::
         (sdTargets c self).map (fun x => Op.updateSecret (sdUpdatedCopy x))) := by
  have hne : sdFailed c self ≠ [] := by
    unfold sdFailed
    exact List.ne_nil_of_mem (List.mem_filter.mpr ⟨hmem, hfail⟩)
  unfold KopySecret.SourceDeletion
  simp [hne]

/-- C2 witness: the theorem applied to a concrete deleted source with one copy
whose UPDATE fails. -/
theorem SourceDeletion_partial_failure_blocks_source_update_witness :
    KopySecret.SourceDeletion cEx2 srcEx2 =
      (RecResult.err (sdJoinedErr (sdFailed cEx2 srcEx2)),
       Op.listSecrets srcEx2.meta.ns ::
         (sdTargets cEx2 srcEx2).map (fun x => Op.updateSecret (sdUpdatedCopy x))) :=
  SourceDeletion_partial_failure_blocks_source_update cEx2 srcEx2 cpEx2
    (by decide) (by decide)

/-- C3: evaluation at the failing input — a copy carrying the finalizer,
marked for deletion, in an active namespace, whose source is absent. The code
returns the not-found error from the source GET (SyncDeletedCopy has no
IsNotFound branch), performing no finalizer removal and creating no copy; the
claim (and section 4.5.3 of the spec) requires aborting without error. -/
theorem KopyReconcile_deleted_copy_absent_source_errors :
    KopyReconcile cEx3 "tok" "t1" =
      (RecResult.err "secret not found",
       [Op.getSecret "t1" "tok", Op.getNamespace "t1", Op.getSecret "src" "tok"]) := by
  decide

/-- C4 counterexample: KopyConfigMap.Copy does not clone the bytes-map
variant — on a source ConfigMap with non-empty BinaryData the built copy's
BinaryData differs from the source's. -/
theorem builtConfigMapCopy_drops_binaryData_cex :
    (builtConfigMapCopy cmEx4 "t1").binaryData ≠ cmEx4.binaryData := by
  decide

/-- C4 (amended): build-copy returns an object with the source's name, the
target namespace, labels exactly the origin-namespace marker, finalizers
exactly the sync finalizer, and no annotations; the SC variant clones data,
string-data and the subtype discriminant, while the CM variant of the Kopier
adapter clones only the string-map Data and leaves BinaryData empty. -/
theorem builtCopy_shape (s : Secret) (cm : ConfigMap) (t : String) :
    (builtSecretCopy s t).meta.name = s.meta.name ∧
    (builtSecretCopy s t).meta.ns = t ∧
    (builtSecretCopy s t).data = s.data ∧
    (builtSecretCopy s t).stringData = s.stringData ∧
    (builtSecretCopy s t).type = s.type ∧
    (builtSecretCopy s t).meta.labels = [(sourceLabelNamespace, s.meta.ns)] ∧
    (builtSecretCopy s t).meta.finalizers = [syncFinalizer] ∧
    (builtSecretCopy s t).meta.annots = [] ∧
    (builtConfigMapCopy cm t).meta.name = cm.meta.name ∧
    (builtConfigMapCopy cm t).meta.ns = t ∧
    (builtConfigMapCopy cm t).data = cm.data ∧
    (builtConfigMapCopy cm t).binaryData = [] ∧
    (builtConfigMapCopy cm t).meta.labels = [(sourceLabelNamespace, cm.meta.ns)] ∧
    (builtConfigMapCopy cm t).meta.finalizers = [syncFinalizer] ∧
    (builtConfigMapCopy cm t).meta.annots = [] := by
  simp [builtSecretCopy, builtConfigMapCopy, addFinalizerMeta]

/-- C5 counterexample: a fetched secret whose sync annotation value is foo
(not of the K=V form) and which has no finalizer is NOT treated as unmanaged:
the reconcile performs the finalizer-adding UPDATE. -/
theorem malformed_sync_value_still_onboarded_cex :
    kvFormSpec "foo" = false ∧
    containsFinalizer sEx5.meta syncFinalizer = false ∧
    Op.updateSecret { sEx5 with meta := addFinalizerMeta sEx5.meta syncFinalizer } ∈
      (KopyReconcile cEx5 "cfg" "src").2 := by
  decide

/-- C5 (amended): classification ignores the annotation's value — an object
with no finalizer is treated as unmanaged (immediate return, fetch only) iff
the sync annotation KEY is absent; whenever the key is present, whatever the
value, the finalizer-adding UPDATE is performed. -/
theorem KopyReconcile_onboarding_by_key_presence
    (c : Cluster) (reqName reqNs : String) (fetched : Secret)
    (hreq : reqName ≠ "")
    (hget : findSecret c reqNs reqName = some fetched)
    (hfin : containsFinalizer fetched.meta syncFinalizer = false) :
    (KopySecret.SyncOptions fetched = false →
        KopyReconcile c reqName reqNs = (RecResult.ok, [Op.getSecret reqNs reqName])) ∧
    (KopySecret.SyncOptions fetched = true →
        Op.updateSecret { fetched with meta := addFinalizerMeta fetched.meta syncFinalizer } ∈
          (KopyReconcile c reqName reqNs).2) := by
  have hne : (reqName == "" && reqNs == "") = false := by simp [hreq]
  constructor
  · intro hso
    unfold KopyReconcile
    simp [hne, hget, hfin, hso]
  · intro hso
    unfold KopyReconcile
    by_cases h2 : c.updateFails reqNs reqName
    all_goals simp [hne, hget, hfin, hso, h2]

/-- C5 witness: the amended theorem applied to the concrete annotated secret. -/
theorem KopyReconcile_onboarding_by_key_presence_witness :
    (KopySecret.SyncOptions sEx5 = false →
        KopyReconcile cEx5 "cfg" "src" = (RecResult.ok, [Op.getSecret "src" "cfg"])) ∧
    (KopySecret.SyncOptions sEx5 = true →
        Op.updateSecret { sEx5 with meta := addFinalizerMeta sEx5.meta syncFinalizer } ∈
          (KopyReconcile cEx5 "cfg" "src").2) :=
  KopyReconcile_onboarding_by_key_presence cEx5 "cfg" "src" sEx5
    (by decide) (by decide) (by decide)

/-- C6: when the target namespace already holds an object of the same name
whose origin-namespace label names a different namespace, SyncSource returns
the ownership-conflict error and its trace holds only the two GETs — no
CREATE and no UPDATE touches the pre-existing copy. -/
theorem SyncSource_refuses_foreign_origin
    (c : Cluster) (name sNs tNs : String) (src tgt : Secret) (origin : String)
    (hsrc : findSecret c sNs name = some src)
    (htgt : findSecret c tNs name = some tgt)
    (horig : lookupKV tgt.meta.labels sourceLabelNamespace = some origin)
    (hne : origin ≠ sNs) :
    KopySecret.SyncSource c name sNs tNs =
      (RecResult.err (name ++ " has a different source in namespace " ++ origin),
       [Op.getSecret sNs name, Op.getSecret tNs name]) := by
  unfold KopySecret.SyncSource
  simp [hsrc, htgt, horig, hne]

/-- C6 witness: the theorem applied to a concrete later source src-b/tok
meeting a copy owned by src-a. -/
theorem SyncSource_refuses_foreign_origin_witness :
    KopySecret.SyncSource cEx6 "tok" "src-b" "tgt" =
      (RecResult.err ("tok" ++ " has a different source in namespace " ++ "src-a"),
       [Op.getSecret "src-b" "tok", Op.getSecret "tgt" "tok"]) :=
  SyncSource_refuses_foreign_origin cEx6 "tok" "src-b" "tgt" srcEx6 tgtEx6 "src-a"
    (by decide) (by decide) (by decide) (by decide)

/-- C7 counterexample: on a GET error other than not-found the spec-modelled
oracle propagates (no boolean), but the code answers the boolean false — the
function does not refine the spec's contract at that input. -/
theorem isNamespaceMarkedForDelete_error_not_propagated_cex :
    terminatingOrAbsentSpec NsGetResult.otherError ≠
      some (isNamespaceMarkedForDelete NsGetResult.otherError) := by
  decide

/-- C7 (amended): isNamespaceMarkedForDelete returns true iff the GET returns
not-found or succeeds with phase Terminating; any other GET error is swallowed
(the phase test runs on the zero-valued namespace) and the answer is false. -/
theorem isNamespaceMarkedForDelete_characterization (g : NsGetResult) :
    isNamespaceMarkedForDelete g = true ↔
      g = NsGetResult.notFound ∨
        ∃ n, g = NsGetResult.found n ∧ n.phase = "Terminating" := by
  cases g with
  | found n => simp [isNamespaceMarkedForDelete]
  | notFound => simp [isNamespaceMarkedForDelete]
  | otherError => simp [isNamespaceMarkedForDelete, namespaceZero]

/-- C8: evaluation at the failing input — a sync annotation value holding no
equals sign makes namespaceContainsSyncLabel index part 1 of a one-element
split, a Go runtime panic (modelled as none); the claim requires a total,
panic-free evaluation. -/
theorem namespaceContainsSyncLabel_panics_without_equals :
    namespaceContainsSyncLabel oEx8 nsEx8 = Option.none := by
  decide

/-- C9: every namespace in the fan-out target list computed by
getSyncNamespaces differs from the request's (source's) namespace and carries
no deletion timestamp. -/
theorem getSyncNamespaces_excludes_self_and_deleted
    (lst : List NamespaceObj) (reqNs : String) (n : NamespaceObj)
    (h : n ∈ getSyncNamespaces lst reqNs) :
    n.name ≠ reqNs ∧ n.deletionTimestamp = false := by
  have hm := List.mem_filter.mp h
  constructor
  · intro he
    simp [he] at hm
  · rcases hm with ⟨-, hb⟩
    simp at hb
    exact hb.2

/-- C9 witness: the theorem applied to a concrete LIST result. -/
theorem getSyncNamespaces_excludes_self_and_deleted_witness :
    nEx9.name ≠ "src" ∧ nEx9.deletionTimestamp = false :=
  getSyncNamespaces_excludes_self_and_deleted [nEx9] "src" nEx9 (by decide)

/-- C10: every listed copy that matches the source's name and carries the
finalizer is updated to an object from which the finalizer AND the
origin-namespace label have both been removed (one UPDATE), and that UPDATE is
in SourceDeletion's trace in every outcome. -/
theorem SourceDeletion_strips_finalizer_and_origin_label
    (c : Cluster) (self cp : Secret) (hmem : cp ∈ sdTargets c self) :
    Op.updateSecret (sdUpdatedCopy cp) ∈ (KopySecret.SourceDeletion c self).2 ∧
    containsFinalizer (sdUpdatedCopy cp).meta syncFinalizer = false ∧
    lookupKV (sdUpdatedCopy cp).meta.labels sourceLabelNamespace = Option.none := by
  refine ⟨?_, ?_, ?_⟩
  · have h1 : Op.updateSecret (sdUpdatedCopy cp) ∈
        (sdTargets c self).map (fun x => Op.updateSecret (sdUpdatedCopy x)) :=
      List.mem_map_of_mem _ hmem
    unfold KopySecret.SourceDeletion
    by_cases h : sdFailed c self = []
    · by_cases h2 : c.updateFails self.meta.ns self.meta.name
      all_goals simp [h, h2, List.mem_cons, List.mem_append, h1]
    · simp [h, List.mem_cons, h1]
  · simp [sdUpdatedCopy, containsFinalizer]
  · simp [sdUpdatedCopy, lookupKV_erase]

/-- C10 witness: the theorem applied to the concrete deleted source and its
copy. -/
theorem SourceDeletion_strips_finalizer_and_origin_label_witness :
    Op.updateSecret (sdUpdatedCopy cpEx2) ∈ (KopySecret.SourceDeletion cEx10 srcEx2).2 ∧
    containsFinalizer (sdUpdatedCopy cpEx2).meta syncFinalizer = false ∧
    lookupKV (sdUpdatedCopy cpEx2).meta.labels sourceLabelNamespace = Option.none :=
  SourceDeletion_strips_finalizer_and_origin_label cEx10 srcEx2 cpEx2 (by decide)
